import Mathlib

/-!
Verification of the `ai-code-debugger-optimizer` backend
(`src/backend/main.py`), a FastAPI service with one functional endpoint
`POST /debug-code` plus a liveness route `GET /`.

The Python source is shallowly embedded as pure Lean functions:
* the request schema (`CodeRequest`, a pydantic model with two plain
  string fields) becomes `validateBody` over a raw body with optional
  fields;
* the TTL cache (`cachetools.TTLCache(maxsize=100, ttl=300)`) becomes an
  explicit association list of entries carrying their insertion time,
  with the configured constants from the source; its get/put semantics
  (expired entries behave as missing, capacity-bounded insertion evicting
  the oldest live entry) follow the spec's description of the cache
  component since the library body is outside the repository;
* the slowapi rate limiter (`@limiter.limit("5/minute")`, keyed by the
  remote address) becomes a rolling-window list of admitted timestamps
  per client; the rolling-window semantics are modelled from the spec
  since the library body is outside the repository, with the constants
  (5 requests, 60 seconds) from the source's configuration string;
* the OpenAI completion call becomes an oracle function from the built
  prompt to `Except String String` (error message, or the content of the
  first choice's message);
* time is an explicit `Nat` argument (seconds).

The endpoint handler `debug_code` is translated line by line from the
source into `debugCode` (the body, behind the limiter decorator) and
`handleDebugPost` (schema validation in front, as FastAPI performs it
before the decorated endpoint runs).

One wiring detail of the source matters for the failure path: line 42
registers slowapi's `_rate_limit_exceeded_handler` under the
`HTTPException` base class (`app.add_exception_handler(HTTPException,
_rate_limit_exceeded_handler)`), and Starlette dispatches a raised
exception to the most specific registered handler. Every
`HTTPException` raised by the endpoint — the limiter's
`RateLimitExceeded` but also the deliberate
`HTTPException(500, "An error occurred …")` of the except branch — is
therefore answered by that handler, which replies 429 with body
`{"error": f"Rate limit exceeded: {exc.detail}"}` regardless of the
raised status. `debugCode` records the raised exception as
`Response.serverError detail`; the caller-visible (status, body) after
the exception-handler layer is `wireResponse`.
-/

namespace CodeDebugger

/-- The pydantic request model `CodeRequest` from the source:
two required plain string fields, with no further constraints. -/
structure CodeRequest where
  code : String
  language : String
deriving DecidableEq

/-- A raw request body: each field either absent or present as a string. -/
structure RawBody where
  code : Option String
  language : Option String
deriving DecidableEq

/-- Pydantic validation of the request body against `CodeRequest`:
both fields must be present as strings; no emptiness constraint exists
in the source model. -/
def validateBody (b : RawBody) : Option CodeRequest :=
  match b.code, b.language with
  | some c, some l => some ⟨c, l⟩
  | _, _ => none

/-- The success record built by the endpoint:
`{"optimized_code": ..., "explanation": ...}`. -/
structure DebugResult where
  optimized_code : String
  explanation : String
deriving DecidableEq

/-- A role-tagged chat message, as in the `messages=[...]` argument of
the completion call. -/
structure ChatMessage where
  role : String
  content : String
deriving DecidableEq

/-- The fixed system message content from the source. -/
def systemContent : String :=
  "You are an AI that debugs and optimizes code with explanations."

/-- The user message content: the f-string
`"Language: {request.language}\n\nDebug and optimize this code:\n{request.code}"`. -/
def userContent (language code : String) : String :=
  "Language: " ++ language ++ "\n\nDebug and optimize this code:\n" ++ code

/-- The prompt builder: the `messages` list passed to the completion
client, exactly as written in the source. A pure function. -/
def buildMessages (language code : String) : List ChatMessage :=
  [⟨"system", systemContent⟩, ⟨"user", userContent language code⟩]

/-- The cache key: the f-string `f"{request.language}-{request.code}"`. -/
def cacheKey (language code : String) : String :=
  language ++ "-" ++ code

/-- Cache TTL in seconds: `TTLCache(maxsize=100, ttl=300)`. -/
def cacheTTL : Nat := 300

/-- Cache capacity: `TTLCache(maxsize=100, ttl=300)`. -/
def cacheMaxsize : Nat := 100

/-- One stored cache entry together with its insertion time. -/
structure CacheEntry where
  key : String
  value : DebugResult
  insertedAt : Nat
deriving DecidableEq

/-- The cache state: entries in insertion order (oldest first). -/
abbrev Cache := List CacheEntry

/-- An entry is live at `now` when fewer than `cacheTTL` seconds have
passed since its insertion; at `insertedAt + cacheTTL` it has expired. -/
def entryLive (now : Nat) (e : CacheEntry) : Bool :=
  decide (now < e.insertedAt + cacheTTL)

/-- `get` on the cache: the entry for the key, provided it has not
expired; an expired entry behaves as a miss. -/
def cacheGet (now : Nat) (k : String) (c : Cache) : Option DebugResult :=
  match c.find? (fun e => e.key == k && entryLive now e) with
  | some e => some e.value
  | none => none

/-- Remove expired entries (the library does this before every insert). -/
def cacheExpire (now : Nat) (c : Cache) : Cache :=
  c.filter (entryLive now)

/-- `put` on the cache: drop expired entries, replace any previous entry
for the key, evict oldest entries while at capacity, then append the new
entry with the current time as its insertion time. -/
def cachePut (now : Nat) (k : String) (v : DebugResult) (c : Cache) : Cache :=
  let c1 := (cacheExpire now c).filter (fun e => e.key != k)
  let c2 := c1.drop (c1.length + 1 - cacheMaxsize)
  c2 ++ [⟨k, v, now⟩]

/-- Rate-limit window in seconds, from the `"5/minute"` configuration. -/
def rateLimitWindow : Nat := 60

/-- Maximum admitted requests per window, from `"5/minute"`. -/
def rateLimitMax : Nat := 5

/-- A past admitted request at time `t` still counts against the rolling
window at time `now`. -/
def inWindow (now t : Nat) : Bool :=
  decide (now < t + rateLimitWindow)

/-- Per-client limiter state: timestamps of admitted requests, newest
first, keyed by client identity (the remote address). -/
abbrev LimiterState := List (String × List Nat)

/-- The admitted-request timestamps recorded for a client. -/
def clientHits (ls : LimiterState) (client : String) : List Nat :=
  match ls.find? (fun p => p.1 == client) with
  | some p => p.2
  | none => []

/-- Replace the recorded timestamps for a client. -/
def setHits (ls : LimiterState) (client : String) (hits : List Nat) : LimiterState :=
  match ls with
  | [] => [(client, hits)]
  | p :: rest =>
    if p.1 == client then (client, hits) :: rest
    else p :: setHits rest client hits

/-- The limiter admits a request iff fewer than `rateLimitMax` admitted
requests fall inside the rolling window ending at `now`. -/
def limiterAllow (now : Nat) (hits : List Nat) : Bool :=
  decide ((hits.filter (inWindow now)).length < rateLimitMax)

/-- Recording an admitted request: the aged-out timestamps are dropped
and `now` is added. -/
def limiterRecord (now : Nat) (hits : List Nat) : List Nat :=
  now :: hits.filter (inWindow now)

/-- The whole mutable process state: the response cache, the limiter
state, and the error log (a list of logged messages, oldest first). -/
structure ServerState where
  cache : Cache
  limiter : LimiterState
  log : List String
deriving DecidableEq

/-- Outcomes of the endpoint as the handler code produces them:
`ok` is a normal return, `rateLimited` is the limiter's raised
`RateLimitExceeded`, `serverError detail` is the except branch's raised
`HTTPException(status_code=500, detail=detail)`, and `validationError`
is a pydantic `RequestValidationError`. Raised exceptions still pass
through the app's exception-handler layer (`wireResponse`) before the
caller sees them. -/
inductive Response where
  | ok (body : DebugResult)
  | rateLimited
  | serverError (detail : String)
  | validationError
deriving DecidableEq

/-- The status code each outcome carries as produced — for a raised
exception, the status it was raised with. The registered exception
handler may answer with a different status on the wire (see
`wireResponse`). -/
def statusCode : Response → Nat
  | .ok _ => 200
  | .rateLimited => 429
  | .serverError _ => 500
  | .validationError => 422

/-- A caller-visible JSON body, schematically: the success record,
a `detail`-keyed body, the `error`-keyed body produced by slowapi's
handler, or FastAPI's 422 validation body (not modelled further). -/
inductive WireBody where
  | result (r : DebugResult)
  | detailBody (s : String)
  | rateError (s : String)
  | validationDetail
deriving DecidableEq

/-- The detail string carried by the limiter's `RateLimitExceeded`,
the limits library's rendering of the source's `"5/minute"`. -/
def rateLimitNotice : String := "5 per 1 minute"

/-- slowapi's `_rate_limit_exceeded_handler`: answers with status 429
and body `{"error": f"Rate limit exceeded: {exc.detail}"}`, ignoring
the status the exception was raised with. Line 42 of the source
registers it for the whole `HTTPException` class. -/
def rateLimitExceededHandler (excDetail : String) : Nat × WireBody :=
  (429, WireBody.rateError ("Rate limit exceeded: " ++ excDetail))

/-- The (status, body) the caller actually receives: normal returns
pass through; every raised `HTTPException` — the limiter's 429 and also
the except branch's deliberate 500 — is dispatched to the handler
registered at line 42; a validation error goes to FastAPI's default
422 handler. -/
def wireResponse : Response → Nat × WireBody
  | .ok r => (200, WireBody.result r)
  | .rateLimited => rateLimitExceededHandler rateLimitNotice
  | .serverError detail => rateLimitExceededHandler detail
  | .validationError => (422, WireBody.validationDetail)

/-- The fixed user-facing failure message from the source's
`HTTPException(status_code=500, detail=...)`. -/
def genericFailureDetail : String :=
  "An error occurred while processing the request."

/-- The fixed explanation string attached to every success record. -/
def fixedExplanation : String :=
  "This response includes fixes and optimizations."

/-- The log line written on failure: `f"Error debugging code: {str(e)}"`. -/
def errorLogLine (e : String) : String :=
  "Error debugging code: " ++ e

/-- Outcome of one request: resulting state, response, and whether the
completion client was invoked. -/
structure StepResult where
  state : ServerState
  response : Response
  clientInvoked : Bool
deriving DecidableEq

/-- The body of `debug_code` behind the `@limiter.limit("5/minute")`
decorator: the limiter check (recording the hit when admitted), then the
cache lookup, then on a miss the completion call on the built prompt,
caching and returning the result on success, and on failure logging the
error and raising `HTTPException(500, <generic detail>)` — recorded here
as `Response.serverError`; what the caller then receives is
`wireResponse` of that outcome.  `comp` is the external completion
client: from the prompt it yields either the first choice's message
content or an error message. -/
def debugCode (st : ServerState) (now : Nat) (client : String)
    (req : CodeRequest) (comp : List ChatMessage → Except String String) :
    StepResult :=
  let hits := clientHits st.limiter client
  if limiterAllow now hits then
    let limiter' := setHits st.limiter client (limiterRecord now hits)
    let key := cacheKey req.language req.code
    match cacheGet now key st.cache with
    | some v => ⟨{ st with limiter := limiter' }, .ok v, false⟩
    | none =>
      match comp (buildMessages req.language req.code) with
      | .ok content =>
        let result : DebugResult := ⟨content.trim, fixedExplanation⟩
        ⟨{ st with limiter := limiter',
                   cache := cachePut now key result st.cache },
         .ok result, true⟩
      | .error e =>
        ⟨{ st with limiter := limiter',
                   log := st.log ++ [errorLogLine e] },
         .serverError genericFailureDetail, true⟩
  else
    ⟨st, .rateLimited, false⟩

/-- The full `POST /debug-code` handling: FastAPI validates the body
against the pydantic model before the decorated endpoint (and hence the
limiter and the cache) runs; an invalid body is rejected there with the
state untouched. -/
def handleDebugPost (st : ServerState) (now : Nat) (client : String)
    (body : RawBody) (comp : List ChatMessage → Except String String) :
    StepResult :=
  match validateBody body with
  | none => ⟨st, .validationError, false⟩
  | some req => debugCode st now client req comp

/-- The fixed body of `GET /`. -/
def homeMessage : String :=
  "Hello, FastAPI backend is running successfully!"

/-- The `GET /` route: no limiter, no cache; it returns 200 with the
fixed message and leaves the state untouched. -/
def home (st : ServerState) : ServerState × Nat × String :=
  (st, 200, homeMessage)

/-- Responses of a sequence of requests issued by one client, each given
as (time, body, completion-client behaviour), threaded through the
evolving server state. -/
def runClient : ServerState → String → List (Nat × CodeRequest × (List ChatMessage → Except String String)) → List Response
  | _, _, [] => []
  | st, client, (now, req, comp) :: rest =>
    (debugCode st now client req comp).response ::
      runClient (debugCode st now client req comp).state client rest

/-! ### Helper lemmas -/

/-- Splitting a character list at a separator absent from both prefixes
is unambiguous. -/
lemma sep_append_inj (sep : Char) (a : List Char) :
    ∀ b c d : List Char, sep ∉ a → sep ∉ b →
      a ++ sep :: c = b ++ sep :: d → a = b ∧ c = d := by
  induction a with
  | nil =>
    intro b c d _ hb h
    cases b with
    | nil => simpa using h
    | cons y ys =>
      simp only [List.nil_append, List.cons_append, List.cons.injEq] at h
      have hmem : sep ∈ y :: ys := by rw [h.1]; exact List.mem_cons_self y ys
      exact absurd hmem hb
  | cons x xs ih =>
    intro b c d ha hb h
    cases b with
    | nil =>
      simp only [List.cons_append, List.nil_append, List.cons.injEq] at h
      have hmem : sep ∈ x :: xs := by rw [← h.1]; exact List.mem_cons_self x xs
      exact absurd hmem ha
    | cons y ys =>
      simp only [List.cons_append, List.cons.injEq] at h
      obtain ⟨hxy, hrest⟩ := h
      obtain ⟨h1, h2⟩ := ih ys c d (fun hm => ha (List.mem_cons_of_mem _ hm))
        (fun hm => hb (List.mem_cons_of_mem _ hm)) hrest
      exact ⟨by rw [hxy, h1], h2⟩

lemma string_data_inj {s t : String} (h : s.data = t.data) : s = t := by
  cases s; cases t
  simpa using congrArg String.mk (by simpa using h)

lemma cachePut_length_le (now : Nat) (k : String) (v : DebugResult) (c : Cache) :
    (cachePut now k v c).length ≤ cacheMaxsize := by
  simp only [cachePut, cacheMaxsize, List.length_append, List.length_drop,
    List.length_cons, List.length_nil]
  omega

lemma cacheGet_expired (now : Nat) (k : String) (c : Cache)
    (h : ∀ e ∈ c, e.key = k → e.insertedAt + cacheTTL ≤ now) :
    cacheGet now k c = none := by
  have hfind : c.find? (fun e => e.key == k && entryLive now e) = none := by
    apply List.find?_eq_none.mpr
    intro x hx
    simp only [Bool.and_eq_true, beq_iff_eq, entryLive, decide_eq_true_eq, not_and]
    intro hkey
    have := h x hx hkey
    omega
  simp [cacheGet, hfind]

lemma cacheGet_cachePut_self (now : Nat) (k : String) (v : DebugResult) (c : Cache) :
    cacheGet now k (cachePut now k v c) = some v := by
  have hfront : ∀ x ∈ (((cacheExpire now c).filter (fun e => e.key != k)).drop
      (((cacheExpire now c).filter (fun e => e.key != k)).length + 1 - cacheMaxsize)),
      ¬ ((fun e => e.key == k && entryLive now e) x = true) := by
    intro x hx
    have hx2 := List.mem_of_mem_drop hx
    have hkey := (List.mem_filter.mp hx2).2
    simp only [bne_iff_ne, ne_eq] at hkey
    simp [hkey]
  have hnone := List.find?_eq_none.mpr hfront
  simp only [cacheGet, cachePut, List.find?_append, hnone, Option.none_or]
  simp [List.find?_cons, entryLive, cacheTTL]

lemma debugCode_denied (st : ServerState) (now : Nat) (client : String)
    (req : CodeRequest) (comp : List ChatMessage → Except String String)
    (h : limiterAllow now (clientHits st.limiter client) = false) :
    debugCode st now client req comp = ⟨st, Response.rateLimited, false⟩ := by
  simp [debugCode, h]

lemma debugCode_admitted_limiter (st : ServerState) (now : Nat) (client : String)
    (req : CodeRequest) (comp : List ChatMessage → Except String String)
    (h : limiterAllow now (clientHits st.limiter client) = true) :
    (debugCode st now client req comp).state.limiter =
      setHits st.limiter client (limiterRecord now (clientHits st.limiter client)) ∧
    (debugCode st now client req comp).response ≠ Response.rateLimited := by
  simp only [debugCode, h, if_true]
  constructor
  · split
    · rfl
    · split <;> rfl
  · split
    · simp
    · split <;> simp

lemma clientHits_setHits (ls : LimiterState) (client : String) (hits : List Nat) :
    clientHits (setHits ls client hits) client = hits := by
  induction ls with
  | nil => simp [setHits, clientHits, List.find?]
  | cons p rest ih =>
    simp only [setHits]
    by_cases hp : (p.1 == client) = true
    · rw [if_pos hp]
      simp [clientHits, List.find?]
    · rw [if_neg hp]
      unfold clientHits
      rw [List.find?_cons_of_neg _ (by simpa using hp)]
      exact ih

lemma inWindow_true {now t : Nat} (h : now < t + rateLimitWindow) :
    inWindow now t = true := by
  simp [inWindow, h]

lemma inWindow_false {now t : Nat} (h : t + rateLimitWindow ≤ now) :
    inWindow now t = false := by
  simp [inWindow]
  omega

lemma limiterAllow_of_short (now : Nat) (l : List Nat)
    (h : l.length < rateLimitMax) : limiterAllow now l = true := by
  simp only [limiterAllow, decide_eq_true_eq]
  exact lt_of_le_of_lt (List.length_filter_le _ _) h

end CodeDebugger

namespace CodeDebugger

/-! ### Claim theorems -/

/-- C9: `GET /` always returns HTTP 200 with the fixed greeting body, in
every cache state, rate-limiter state and log state — in particular also
for clients whose `POST /debug-code` quota is exhausted, since `home`
never consults the limiter. -/
theorem home_always_ok (st : ServerState) :
    home st = (st, 200, "Hello, FastAPI backend is running successfully!") :=
  rfl

/-- C8: for every (code, language) input the prompt builder produces
exactly two role-tagged messages in order — the fixed system message,
then a user message embedding the language label and the code verbatim
(the code is a literal suffix of the user content). The builder is a
pure function. -/
theorem buildMessages_two_messages (language code : String) :
    buildMessages language code =
      [⟨"system", "You are an AI that debugs and optimizes code with explanations."⟩,
       ⟨"user", "Language: " ++ language ++ "\n\nDebug and optimize this code:\n" ++ code⟩] ∧
    (buildMessages language code).length = 2 ∧
    (∃ before, userContent language code = before ++ code) ∧
    (∃ before mid, userContent language code = before ++ language ++ mid ++ code) :=
  ⟨rfl, rfl, ⟨"Language: " ++ language ++ "\n\nDebug and optimize this code:\n", rfl⟩,
   ⟨"Language: ", "\n\nDebug and optimize this code:\n", rfl⟩⟩

/-- C5 counterexample: the cache key is built by concatenating language
and code with the separator `-`, so the distinct pairs ("a-b", "c") and
("a", "b-c") collide on the key "a-b-c"; the key function is not
injective. -/
theorem cacheKey_not_injective :
    cacheKey "a-b" "c" = cacheKey "a" "b-c" ∧
    (("a-b", "c") : String × String) ≠ ("a", "b-c") := by
  exact ⟨by decide, by decide⟩

/-- C5 (amended): the cache-key function is deterministic — equal
(language, code) pairs give equal keys — and it is injective on pairs
whose language does not contain the separator character `-`; pairs
whose language contains `-` can collide. -/
theorem cacheKey_deterministic_and_sepfree_injective :
    (∀ l c l2 c2 : String, l = l2 → c = c2 → cacheKey l c = cacheKey l2 c2) ∧
    (∀ l1 c1 l2 c2 : String, '-' ∉ l1.data → '-' ∉ l2.data →
      cacheKey l1 c1 = cacheKey l2 c2 → l1 = l2 ∧ c1 = c2) := by
  refine ⟨fun l c l2 c2 hl hc => by rw [hl, hc], ?_⟩
  intro l1 c1 l2 c2 h1 h2 hkey
  have hdata : l1.data ++ '-' :: c1.data = l2.data ++ '-' :: c2.data := by
    have := congrArg String.data hkey
    simpa [cacheKey, String.data_append] using this
  obtain ⟨ha, hb⟩ := sep_append_inj '-' l1.data l2.data c1.data c2.data h1 h2 hdata
  exact ⟨string_data_inj ha, string_data_inj hb⟩

theorem cacheKey_deterministic_and_sepfree_injective_witness :
    ('-' ∉ ("python" : String).data) ∧
    (("python" : String) = "python" ∧ ("print(1)" : String) = "print(1)") :=
  ⟨by decide,
   cacheKey_deterministic_and_sepfree_injective.2 "python" "print(1)" "python" "print(1)"
     (by decide) (by decide) rfl⟩

/-- C6 counterexample: the pydantic model constrains `code` only to be a
string, so a body with the empty string as `code` passes schema
validation, contrary to the claim that `code` must be non-empty. -/
theorem validateBody_accepts_empty_code :
    validateBody ⟨some "", some "python"⟩ = some ⟨"", "python"⟩ ∧
    (⟨"", "python"⟩ : CodeRequest).code = "" :=
  ⟨rfl, rfl⟩

/-- C6 (amended): a request body is accepted by the schema exactly when
both fields are present as strings (the empty `code` string is
accepted); a body with a missing field is rejected by validation before
the rate limiter or the cache is consulted — the state is untouched and
the completion client is not invoked. -/
theorem validateBody_presence (b : RawBody) (st : ServerState) (now : Nat)
    (client : String) (comp : List ChatMessage → Except String String) :
    ((validateBody b).isSome ↔ b.code.isSome ∧ b.language.isSome) ∧
    (validateBody b = none →
      handleDebugPost st now client b comp =
        ⟨st, Response.validationError, false⟩) := by
  constructor
  · cases hc : b.code <;> cases hl : b.language <;> simp [validateBody, hc, hl]
  · intro hnone
    simp [handleDebugPost, hnone]

theorem validateBody_presence_witness :
    validateBody ⟨none, some "python"⟩ = none ∧
    handleDebugPost ⟨[], [], []⟩ 0 "1.2.3.4" ⟨none, some "python"⟩
        (fun _ => Except.error "boom") =
      ⟨⟨[], [], []⟩, Response.validationError, false⟩ :=
  ⟨rfl,
   (validateBody_presence ⟨none, some "python"⟩ ⟨[], [], []⟩ 0 "1.2.3.4"
     (fun _ => Except.error "boom")).2 rfl⟩

/-- C1: an admitted request whose (language, code) key is present in the
cache (within the TTL) is answered with exactly the cached entry and
HTTP 200, the completion client is not invoked, and the cache contents
are unchanged by the hit. -/
theorem debugCode_cache_hit (st : ServerState) (now : Nat) (client : String)
    (req : CodeRequest) (comp : List ChatMessage → Except String String)
    (v : DebugResult)
    (hallow : limiterAllow now (clientHits st.limiter client) = true)
    (hhit : cacheGet now (cacheKey req.language req.code) st.cache = some v) :
    (debugCode st now client req comp).response = Response.ok v ∧
    statusCode (debugCode st now client req comp).response = 200 ∧
    (debugCode st now client req comp).clientInvoked = false ∧
    (debugCode st now client req comp).state.cache = st.cache := by
  simp [debugCode, hallow, hhit, statusCode]

theorem debugCode_cache_hit_witness :
    (debugCode ⟨[⟨cacheKey "python" "print(1)", ⟨"print(1)", fixedExplanation⟩, 10⟩], [], []⟩
        10 "1.2.3.4" ⟨"print(1)", "python"⟩ (fun _ => Except.error "down")).response
      = Response.ok ⟨"print(1)", fixedExplanation⟩ ∧
    statusCode (debugCode ⟨[⟨cacheKey "python" "print(1)", ⟨"print(1)", fixedExplanation⟩, 10⟩], [], []⟩
        10 "1.2.3.4" ⟨"print(1)", "python"⟩ (fun _ => Except.error "down")).response = 200 ∧
    (debugCode ⟨[⟨cacheKey "python" "print(1)", ⟨"print(1)", fixedExplanation⟩, 10⟩], [], []⟩
        10 "1.2.3.4" ⟨"print(1)", "python"⟩ (fun _ => Except.error "down")).clientInvoked = false ∧
    (debugCode ⟨[⟨cacheKey "python" "print(1)", ⟨"print(1)", fixedExplanation⟩, 10⟩], [], []⟩
        10 "1.2.3.4" ⟨"print(1)", "python"⟩ (fun _ => Except.error "down")).state.cache
      = [⟨cacheKey "python" "print(1)", ⟨"print(1)", fixedExplanation⟩, 10⟩] :=
  debugCode_cache_hit ⟨[⟨cacheKey "python" "print(1)", ⟨"print(1)", fixedExplanation⟩, 10⟩], [], []⟩
    10 "1.2.3.4" ⟨"print(1)", "python"⟩ (fun _ => Except.error "down")
    ⟨"print(1)", fixedExplanation⟩ (by decide) (by decide)

/-- C2 (code bug): at a concrete failing request the endpoint body does
raise `HTTPException(500, "An error occurred while processing the
request.")` and writes the original error text to the log — but the
handler registered at line 42 for all `HTTPException`s answers that
raise, so the caller receives 429 with body
`{"error": "Rate limit exceeded: An error occurred while processing
the request."}` and never the claimed 500 with body
`{"detail": "An error occurred while processing the request."}`. -/
theorem debugCode_failure_hijacked_by_handler :
    (debugCode ⟨[], [], []⟩ 0 "1.2.3.4" ⟨"print(1)", "python"⟩
        (fun _ => Except.error "connection refused")).response
      = Response.serverError "An error occurred while processing the request." ∧
    (debugCode ⟨[], [], []⟩ 0 "1.2.3.4" ⟨"print(1)", "python"⟩
        (fun _ => Except.error "connection refused")).state.log
      = ["Error debugging code: connection refused"] ∧
    wireResponse (debugCode ⟨[], [], []⟩ 0 "1.2.3.4" ⟨"print(1)", "python"⟩
        (fun _ => Except.error "connection refused")).response
      = (429, WireBody.rateError
          "Rate limit exceeded: An error occurred while processing the request.") ∧
    wireResponse (debugCode ⟨[], [], []⟩ 0 "1.2.3.4" ⟨"print(1)", "python"⟩
        (fun _ => Except.error "connection refused")).response
      ≠ (500, WireBody.detailBody "An error occurred while processing the request.") := by
  exact ⟨by decide, by decide, by decide, by decide⟩

/-- C10: on the failure path the cache is left exactly as it was before
the request — the cache write only happens on the success path, so the
error response is atomic with respect to cache state. -/
theorem debugCode_failure_cache_unchanged (st : ServerState) (now : Nat)
    (client : String) (req : CodeRequest)
    (comp : List ChatMessage → Except String String) (e : String)
    (hallow : limiterAllow now (clientHits st.limiter client) = true)
    (hmiss : cacheGet now (cacheKey req.language req.code) st.cache = none)
    (hcomp : comp (buildMessages req.language req.code) = Except.error e) :
    (debugCode st now client req comp).state.cache = st.cache := by
  simp [debugCode, hallow, hmiss, hcomp]

theorem debugCode_failure_cache_unchanged_witness :
    (debugCode ⟨[⟨cacheKey "rust" "fn main() \x7b\x7d", ⟨"v", fixedExplanation⟩, 3⟩], [], []⟩
        5 "8.8.8.8" ⟨"print(1)", "python"⟩ (fun _ => Except.error "boom")).state.cache
      = [⟨cacheKey "rust" "fn main() \x7b\x7d", ⟨"v", fixedExplanation⟩, 3⟩] :=
  debugCode_failure_cache_unchanged
    ⟨[⟨cacheKey "rust" "fn main() \x7b\x7d", ⟨"v", fixedExplanation⟩, 3⟩], [], []⟩
    5 "8.8.8.8" ⟨"print(1)", "python"⟩ (fun _ => Except.error "boom") "boom"
    (by decide) (by decide) rfl

/-- C4: when the completion call succeeds, the admitted request is
answered with HTTP 200 and a record whose `optimized_code` is the
whitespace-trimmed text of the first completion choice and whose
`explanation` is the fixed string; the same record is stored in the
cache under the request's key (an immediate lookup finds it). -/
theorem debugCode_success_result (st : ServerState) (now : Nat)
    (client : String) (req : CodeRequest)
    (comp : List ChatMessage → Except String String) (content : String)
    (hallow : limiterAllow now (clientHits st.limiter client) = true)
    (hmiss : cacheGet now (cacheKey req.language req.code) st.cache = none)
    (hcomp : comp (buildMessages req.language req.code) = Except.ok content) :
    (debugCode st now client req comp).response
      = Response.ok ⟨content.trim, "This response includes fixes and optimizations."⟩ ∧
    statusCode (debugCode st now client req comp).response = 200 ∧
    (debugCode st now client req comp).state.cache
      = cachePut now (cacheKey req.language req.code)
          ⟨content.trim, "This response includes fixes and optimizations."⟩ st.cache ∧
    cacheGet now (cacheKey req.language req.code)
        (debugCode st now client req comp).state.cache
      = some ⟨content.trim, "This response includes fixes and optimizations."⟩ := by
  simp [debugCode, hallow, hmiss, hcomp, statusCode, fixedExplanation,
    cacheGet_cachePut_self]

theorem debugCode_success_result_witness :
    (debugCode ⟨[], [], []⟩ 0 "1.2.3.4" ⟨"print(1)", "python"⟩
        (fun _ => Except.ok "  print(1)\n")).response
      = Response.ok ⟨("  print(1)\n" : String).trim,
          "This response includes fixes and optimizations."⟩ ∧
    statusCode (debugCode ⟨[], [], []⟩ 0 "1.2.3.4" ⟨"print(1)", "python"⟩
        (fun _ => Except.ok "  print(1)\n")).response = 200 ∧
    (debugCode ⟨[], [], []⟩ 0 "1.2.3.4" ⟨"print(1)", "python"⟩
        (fun _ => Except.ok "  print(1)\n")).state.cache
      = cachePut 0 (cacheKey "python" "print(1)")
          ⟨("  print(1)\n" : String).trim,
            "This response includes fixes and optimizations."⟩ [] ∧
    cacheGet 0 (cacheKey "python" "print(1)")
        (debugCode ⟨[], [], []⟩ 0 "1.2.3.4" ⟨"print(1)", "python"⟩
          (fun _ => Except.ok "  print(1)\n")).state.cache
      = some ⟨("  print(1)\n" : String).trim,
          "This response includes fixes and optimizations."⟩ :=
  debugCode_success_result ⟨[], [], []⟩ 0 "1.2.3.4" ⟨"print(1)", "python"⟩
    (fun _ => Except.ok "  print(1)\n") "  print(1)\n"
    (by decide) (by decide) rfl

/-- C7: the cache never exceeds 100 entries after an insertion (a full
cache evicts before appending), an entry is live exactly until 300
seconds after its insertion, a `get` whose entries for the key have all
expired is a miss, and consequently an admitted request whose cached
entry has aged past the TTL invokes the completion client again. -/
theorem cache_bounded_and_ttl :
    (∀ (now : Nat) (k : String) (v : DebugResult) (c : Cache),
        (cachePut now k v c).length ≤ 100) ∧
    (∀ (now : Nat) (e : CacheEntry),
        entryLive now e = false ↔ e.insertedAt + 300 ≤ now) ∧
    (∀ (now : Nat) (k : String) (c : Cache),
        (∀ e ∈ c, e.key = k → e.insertedAt + 300 ≤ now) →
        cacheGet now k c = none) ∧
    (∀ (st : ServerState) (now : Nat) (client : String) (req : CodeRequest)
        (comp : List ChatMessage → Except String String),
        limiterAllow now (clientHits st.limiter client) = true →
        (∀ e ∈ st.cache, e.key = cacheKey req.language req.code →
          e.insertedAt + 300 ≤ now) →
        (debugCode st now client req comp).clientInvoked = true) := by
  refine ⟨fun now k v c => cachePut_length_le now k v c, ?_, ?_, ?_⟩
  · intro now e
    simp only [entryLive, cacheTTL, decide_eq_false_iff_not, not_lt]
  · intro now k c h
    exact cacheGet_expired now k c (by simpa [cacheTTL] using h)
  · intro st now client req comp hallow hexp
    have hmiss : cacheGet now (cacheKey req.language req.code) st.cache = none :=
      cacheGet_expired now (cacheKey req.language req.code) st.cache
        (by simpa [cacheTTL] using hexp)
    simp only [debugCode, hallow, if_true, hmiss]
    cases comp (buildMessages req.language req.code) <;> simp

/-- C3: a rolling-window scenario for one client. Starting from a state
with no recorded hits for the client, six requests arrive at
non-decreasing times `t1 ≤ … ≤ t6` with `t6 < t1 + 60`: the first five
are admitted and the sixth is denied with the 429 response. A seventh
request at `t7` with `t1 + 60 ≤ t7 < t2 + 60` — after the oldest
admitted request has aged out of the window — is admitted again.
Requests, completion behaviours and the rest of the state are
arbitrary; `s1 … s7` are the successive step results. -/
theorem rate_limit_rolling_window (st0 : ServerState) (client : String)
    (q1 q2 q3 q4 q5 q6 q7 : CodeRequest)
    (f1 f2 f3 f4 f5 f6 f7 : List ChatMessage → Except String String)
    (t1 t2 t3 t4 t5 t6 t7 : Nat)
    (s1 s2 s3 s4 s5 s6 s7 : StepResult)
    (h0 : clientHits st0.limiter client = [])
    (hm1 : t1 ≤ t2) (hm2 : t2 ≤ t3) (hm3 : t3 ≤ t4) (hm4 : t4 ≤ t5)
    (hm5 : t5 ≤ t6) (_hm6 : t6 ≤ t7)
    (hwin : t6 < t1 + 60) (hage : t1 + 60 ≤ t7) (hstill : t7 < t2 + 60)
    (e1 : s1 = debugCode st0 t1 client q1 f1)
    (e2 : s2 = debugCode s1.state t2 client q2 f2)
    (e3 : s3 = debugCode s2.state t3 client q3 f3)
    (e4 : s4 = debugCode s3.state t4 client q4 f4)
    (e5 : s5 = debugCode s4.state t5 client q5 f5)
    (e6 : s6 = debugCode s5.state t6 client q6 f6)
    (e7 : s7 = debugCode s6.state t7 client q7 f7) :
    s1.response ≠ Response.rateLimited ∧
    s2.response ≠ Response.rateLimited ∧
    s3.response ≠ Response.rateLimited ∧
    s4.response ≠ Response.rateLimited ∧
    s5.response ≠ Response.rateLimited ∧
    s6.response = Response.rateLimited ∧
    s7.response ≠ Response.rateLimited ∧
    statusCode Response.rateLimited = 429 := by
  have w21 : inWindow t2 t1 = true := inWindow_true (by show t2 < t1 + 60; omega)
  have w32 : inWindow t3 t2 = true := inWindow_true (by show t3 < t2 + 60; omega)
  have w31 : inWindow t3 t1 = true := inWindow_true (by show t3 < t1 + 60; omega)
  have w43 : inWindow t4 t3 = true := inWindow_true (by show t4 < t3 + 60; omega)
  have w42 : inWindow t4 t2 = true := inWindow_true (by show t4 < t2 + 60; omega)
  have w41 : inWindow t4 t1 = true := inWindow_true (by show t4 < t1 + 60; omega)
  have w54 : inWindow t5 t4 = true := inWindow_true (by show t5 < t4 + 60; omega)
  have w53 : inWindow t5 t3 = true := inWindow_true (by show t5 < t3 + 60; omega)
  have w52 : inWindow t5 t2 = true := inWindow_true (by show t5 < t2 + 60; omega)
  have w51 : inWindow t5 t1 = true := inWindow_true (by show t5 < t1 + 60; omega)
  have w65 : inWindow t6 t5 = true := inWindow_true (by show t6 < t5 + 60; omega)
  have w64 : inWindow t6 t4 = true := inWindow_true (by show t6 < t4 + 60; omega)
  have w63 : inWindow t6 t3 = true := inWindow_true (by show t6 < t3 + 60; omega)
  have w62 : inWindow t6 t2 = true := inWindow_true (by show t6 < t2 + 60; omega)
  have w61 : inWindow t6 t1 = true := inWindow_true (by show t6 < t1 + 60; omega)
  have w75 : inWindow t7 t5 = true := inWindow_true (by show t7 < t5 + 60; omega)
  have w74 : inWindow t7 t4 = true := inWindow_true (by show t7 < t4 + 60; omega)
  have w73 : inWindow t7 t3 = true := inWindow_true (by show t7 < t3 + 60; omega)
  have w72 : inWindow t7 t2 = true := inWindow_true (by show t7 < t2 + 60; omega)
  have n71 : inWindow t7 t1 = false := inWindow_false (by show t1 + 60 ≤ t7; omega)
  have A1 : limiterAllow t1 (clientHits st0.limiter client) = true := by
    rw [h0]; exact limiterAllow_of_short _ _ (by decide)
  have h1 := debugCode_admitted_limiter st0 t1 client q1 f1 A1
  rw [← e1] at h1
  have hh1 : clientHits s1.state.limiter client = [t1] := by
    rw [h1.1, h0, clientHits_setHits]; simp [limiterRecord]
  have A2 : limiterAllow t2 (clientHits s1.state.limiter client) = true := by
    rw [hh1]; exact limiterAllow_of_short _ _ (by simp [rateLimitMax])
  have h2 := debugCode_admitted_limiter s1.state t2 client q2 f2 A2
  rw [← e2] at h2
  have hh2 : clientHits s2.state.limiter client = [t2, t1] := by
    rw [h2.1, hh1, clientHits_setHits]
    simp [limiterRecord, List.filter_cons, List.filter_nil, w21]
  have A3 : limiterAllow t3 (clientHits s2.state.limiter client) = true := by
    rw [hh2]; exact limiterAllow_of_short _ _ (by simp [rateLimitMax])
  have h3 := debugCode_admitted_limiter s2.state t3 client q3 f3 A3
  rw [← e3] at h3
  have hh3 : clientHits s3.state.limiter client = [t3, t2, t1] := by
    rw [h3.1, hh2, clientHits_setHits]
    simp [limiterRecord, List.filter_cons, List.filter_nil, w32, w31]
  have A4 : limiterAllow t4 (clientHits s3.state.limiter client) = true := by
    rw [hh3]; exact limiterAllow_of_short _ _ (by simp [rateLimitMax])
  have h4 := debugCode_admitted_limiter s3.state t4 client q4 f4 A4
  rw [← e4] at h4
  have hh4 : clientHits s4.state.limiter client = [t4, t3, t2, t1] := by
    rw [h4.1, hh3, clientHits_setHits]
    simp [limiterRecord, List.filter_cons, List.filter_nil, w43, w42, w41]
  have A5 : limiterAllow t5 (clientHits s4.state.limiter client) = true := by
    rw [hh4]; exact limiterAllow_of_short _ _ (by simp [rateLimitMax])
  have h5 := debugCode_admitted_limiter s4.state t5 client q5 f5 A5
  rw [← e5] at h5
  have hh5 : clientHits s5.state.limiter client = [t5, t4, t3, t2, t1] := by
    rw [h5.1, hh4, clientHits_setHits]
    simp [limiterRecord, List.filter_cons, List.filter_nil, w54, w53, w52, w51]
  have A6 : limiterAllow t6 (clientHits s5.state.limiter client) = false := by
    rw [hh5]
    have hfull : List.filter (inWindow t6) [t5, t4, t3, t2, t1] = [t5, t4, t3, t2, t1] := by
      simp [List.filter_cons, List.filter_nil, w65, w64, w63, w62, w61]
    simp [limiterAllow, hfull, rateLimitMax]
  have h6 := debugCode_denied s5.state t6 client q6 f6 A6
  rw [← e6] at h6
  have hr6 : s6.response = Response.rateLimited := by rw [h6]
  have hs6 : s6.state = s5.state := by rw [h6]
  have A7 : limiterAllow t7 (clientHits s6.state.limiter client) = true := by
    rw [hs6, hh5]
    have hfour : List.filter (inWindow t7) [t5, t4, t3, t2, t1] = [t5, t4, t3, t2] := by
      simp [List.filter_cons, List.filter_nil, w75, w74, w73, w72, n71]
    simp [limiterAllow, hfour, rateLimitMax]
  have h7 := debugCode_admitted_limiter s6.state t7 client q7 f7 A7
  rw [← e7] at h7
  exact ⟨h1.2, h2.2, h3.2, h4.2, h5.2, hr6, h7.2, rfl⟩

/-- The fixed request, completion stub and client used by the C3 witness. -/
def rlDemoReq : CodeRequest := ⟨"print(1)", "python"⟩

def rlDemoComp : List ChatMessage → Except String String := fun _ => Except.ok "y"

def rlS1 : StepResult := debugCode ⟨[], [], []⟩ 0 "1.2.3.4" rlDemoReq rlDemoComp

def rlS2 : StepResult := debugCode rlS1.state 1 "1.2.3.4" rlDemoReq rlDemoComp

def rlS3 : StepResult := debugCode rlS2.state 2 "1.2.3.4" rlDemoReq rlDemoComp

def rlS4 : StepResult := debugCode rlS3.state 3 "1.2.3.4" rlDemoReq rlDemoComp

def rlS5 : StepResult := debugCode rlS4.state 4 "1.2.3.4" rlDemoReq rlDemoComp

def rlS6 : StepResult := debugCode rlS5.state 5 "1.2.3.4" rlDemoReq rlDemoComp

def rlS7 : StepResult := debugCode rlS6.state 60 "1.2.3.4" rlDemoReq rlDemoComp

theorem rate_limit_rolling_window_witness :
    rlS1.response ≠ Response.rateLimited ∧
    rlS2.response ≠ Response.rateLimited ∧
    rlS3.response ≠ Response.rateLimited ∧
    rlS4.response ≠ Response.rateLimited ∧
    rlS5.response ≠ Response.rateLimited ∧
    rlS6.response = Response.rateLimited ∧
    rlS7.response ≠ Response.rateLimited ∧
    statusCode Response.rateLimited = 429 :=
  rate_limit_rolling_window ⟨[], [], []⟩ "1.2.3.4"
    rlDemoReq rlDemoReq rlDemoReq rlDemoReq rlDemoReq rlDemoReq rlDemoReq
    rlDemoComp rlDemoComp rlDemoComp rlDemoComp rlDemoComp rlDemoComp rlDemoComp
    0 1 2 3 4 5 60
    rlS1 rlS2 rlS3 rlS4 rlS5 rlS6 rlS7
    rfl (by decide) (by decide) (by decide) (by decide) (by decide) (by decide)
    (by decide) (by decide) (by decide)
    rfl rfl rfl rfl rfl rfl rfl

theorem cache_bounded_and_ttl_witness :
    (debugCode ⟨[⟨cacheKey "python" "print(1)", ⟨"v", fixedExplanation⟩, 0⟩], [], []⟩
        300 "9.9.9.9" ⟨"print(1)", "python"⟩ (fun _ => Except.ok "y")).clientInvoked
      = true :=
  cache_bounded_and_ttl.2.2.2
    ⟨[⟨cacheKey "python" "print(1)", ⟨"v", fixedExplanation⟩, 0⟩], [], []⟩
    300 "9.9.9.9" ⟨"print(1)", "python"⟩ (fun _ => Except.ok "y")
    (by decide) (by decide)

end CodeDebugger
